import Mathlib

/-!
Shallow embedding of `Loan.py` (scott-dunphy/Loan).

The Python class `Loan` builds a month-by-month amortization schedule.
We model:
  * python `date` values as a `Date` structure (year, month, day);
    `date` subtraction (`.days`) is modelled by the proleptic Gregorian
    ordinal `toOrdinal` (as in python's `date.toordinal`);
  * float arithmetic as exact rational (`ℚ`) arithmetic;
  * the two `OrderedDict` override maps (`loan_draws`, `loan_paydowns`),
    which are initialized to `0` at every ledger date, as total functions
    `Date → ℚ` (zero everywhere initially); dict assignment is pointwise
    update.  A dict lookup at a key absent from the map raises `KeyError`
    in python; the schedule generator only looks up ledger dates, which
    are always present, so the generator is total;
  * the fallible constructor `Loan.__init__` as `mkLoan`, returning
    `Except String Loan` (`.error` models a raised `ValueError`).
-/

/-- A calendar date, mirroring python's `datetime.date`.  Python's `date`
constructor guarantees `1 ≤ month ≤ 12` and `1 ≤ day ≤` length of the month;
we carry that as the separate predicate `WFDate` where a proof needs it. -/
structure Date where
  year : ℕ
  month : ℕ
  day : ℕ
deriving DecidableEq

/-- Gregorian leap-year test, as used by python's `calendar.monthrange`. -/
def isLeap (y : ℕ) : Bool :=
  (y % 4 == 0 && y % 100 != 0) || y % 400 == 0

/-- Number of days in a month (`calendar.monthrange(y, m)[1]`). -/
def daysInMonth (y m : ℕ) : ℕ :=
  if m = 2 then (if isLeap y then 29 else 28)
  else if m = 4 ∨ m = 6 ∨ m = 9 ∨ m = 11 then 30
  else 31

/-- The invariants python's `date` type maintains for us. -/
def WFDate (d : Date) : Prop :=
  1 ≤ d.month ∧ d.month ≤ 12 ∧ 1 ≤ d.day ∧ d.day ≤ daysInMonth d.year d.month

instance (d : Date) : Decidable (WFDate d) :=
  inferInstanceAs (Decidable (_ ∧ _ ∧ _ ∧ _))

/-- Chronological strict order on dates (python compares `date` values
lexicographically by year, month, day). -/
def dateLt (a b : Date) : Prop :=
  a.year < b.year ∨
    (a.year = b.year ∧ (a.month < b.month ∨ (a.month = b.month ∧ a.day < b.day)))

instance (a b : Date) : Decidable (dateLt a b) :=
  inferInstanceAs (Decidable (_ ∨ (_ ∧ (_ ∨ (_ ∧ _)))))

/-- Days before month `m` in year `y`. -/
def daysBeforeMonth (y m : ℕ) : ℕ :=
  ((List.range (m - 1)).map (fun j => daysInMonth y (j + 1))).sum

/-- Proleptic Gregorian day number (python `date.toordinal`); differences of
this model `(end_date - start_date).days`. -/
def toOrdinal (d : Date) : ℤ :=
  let y : ℤ := (d.year : ℤ) - 1
  365 * y + y / 4 - y / 100 + y / 400 + (daysBeforeMonth d.year d.month : ℤ) + (d.day : ℤ)

/-- `Loan.get_end_of_month`: set the date to the last day of its month. -/
def get_end_of_month (input_date : Date) : Date :=
  ⟨input_date.year, input_date.month, daysInMonth input_date.year input_date.month⟩

/-- `fund_date + relativedelta(months := i)` followed by `get_end_of_month`:
the end-of-month date `i` calendar months after `d`'s month. -/
def add_months_eom (d : Date) (i : ℕ) : Date :=
  let k := d.year * 12 + (d.month - 1) + i
  ⟨k / 12, k % 12 + 1, daysInMonth (k / 12) (k % 12 + 1)⟩

/-- The loop count of `initialize_loan_schedule`:
`(maturity.year - fund.year) * 12 + maturity.month - fund.month + 1`
(a `range` over a negative count is empty, hence `Int.toNat`). -/
def n_periods (fd md : Date) : ℕ :=
  (((md.year : ℤ) - (fd.year : ℤ)) * 12 + (md.month : ℤ) - (fd.month : ℤ) + 1).toNat

/-- `self.monthly_dates` as computed in `initialize_loan_schedule`. -/
def monthly_dates_of (fd md : Date) : List Date :=
  (List.range (n_periods fd md)).map (fun i => add_months_eom fd i)

/-- One row of the schedule: the six numeric fields of each period's dict. -/
@[ext] structure Period where
  beginning_balance : ℚ
  loan_draw : ℚ
  loan_paydown : ℚ
  interest_payment : ℚ
  scheduled_principal_payment : ℚ
  ending_balance : ℚ
deriving DecidableEq

/-- The all-zero row `initialize_loan_schedule` fills in for every date. -/
def zeroPeriod : Period := ⟨0, 0, 0, 0, 0, 0⟩

/-- The state of a `Loan` object after `__init__`. -/
structure Loan where
  loan_amount : ℚ
  rate : ℚ
  fund_date : Date
  maturity_date : Date
  payment_type : String
  interest_only_periods : ℤ
  amortizing_periods : ℤ
  amortizing_payment : ℚ
  monthly_dates : List Date
  schedule : List (Date × Period)
  loan_draws : Date → ℚ
  loan_paydowns : Date → ℚ

/-- `Loan.calculate_amortizing_payment` (the level annuity payment).
`**` on a float with an `int` exponent is modelled by `zpow`. -/
def calculate_amortizing_payment (rate : ℚ) (amortizing_periods : ℤ) (loan_balance : ℚ) : ℚ :=
  if amortizing_periods = 0 then 0
  else
    let monthly_rate := rate / 12
    let total_payments := amortizing_periods
    if monthly_rate = 0 then loan_balance / (total_payments : ℚ)
    else
      loan_balance * (monthly_rate * (1 + monthly_rate) ^ total_payments) /
        ((1 + monthly_rate) ^ total_payments - 1)

/-- `Loan.calculate_interest`.  The source looks numerator and denominator up
in two dicts keyed by the payment type; a type outside the three recognized
conventions would raise `KeyError`, but the constructor rejects such types, so
the branch taken here for other strings is never reached on constructed loans. -/
def calculate_interest (rate : ℚ) (payment_type : String) (balance : ℚ)
    (start_date end_date : Date) : ℚ :=
  let date_delta : ℤ := toOrdinal end_date - toOrdinal start_date
  if payment_type = "Actual/360" then balance * rate * (date_delta : ℚ) / 360
  else if payment_type = "30/360" then balance * rate * 30 / 360
  else balance * rate * (date_delta : ℚ) / 365

/-- The three recognized day-count conventions. -/
def payment_types : List String := ["Actual/360", "30/360", "Actual/365"]

/-- The `Loan` record built by `__init__` once validation has passed: both
dates are normalized to end of month, the level payment is computed once from
the original principal, the ledger skeleton is zero-filled, and both override
maps are zero at every date. -/
def loanOf (loan_amount rate : ℚ) (fund_date maturity_date : Date) (payment_type : String)
    (interest_only_periods amortizing_periods : ℤ) : Loan :=
  let fd := get_end_of_month fund_date
  let md := get_end_of_month maturity_date
  let dates := monthly_dates_of fd md
  { loan_amount := loan_amount
    rate := rate
    fund_date := fd
    maturity_date := md
    payment_type := payment_type
    interest_only_periods := interest_only_periods
    amortizing_periods := amortizing_periods
    amortizing_payment := calculate_amortizing_payment rate amortizing_periods loan_amount
    monthly_dates := dates
    schedule := dates.map (fun k => (k, zeroPeriod))
    loan_draws := fun _ => 0
    loan_paydowns := fun _ => 0 }

/-- `Loan.__init__`: the four validation checks, in source order, then the
construction of the object.  `fund_date >= maturity_date` is the negation of
`fund_date < maturity_date`.  Note the checks compare the raw (pre-
normalization) dates. -/
def mkLoan (loan_amount rate : ℚ) (fund_date maturity_date : Date) (payment_type : String)
    (interest_only_periods amortizing_periods : ℤ) : Except String Loan :=
  if loan_amount ≤ 0 then Except.error "Loan amount must be positive."
  else if rate < 0 ∨ 1 < rate then Except.error "Rate must be between 0 and 1."
  else if ¬ dateLt fund_date maturity_date then
    Except.error "Funding date must precede maturity date."
  else if payment_type ∉ payment_types then Except.error "Unsupported payment type"
  else Except.ok (loanOf loan_amount rate fund_date maturity_date payment_type
    interest_only_periods amortizing_periods)

/-- `Loan.get_loan_draw`: dict lookup (always present at ledger dates). -/
def get_loan_draw (l : Loan) (draw_date : Date) : ℚ := l.loan_draws draw_date

/-- `Loan.get_loan_paydown`: dict lookup (always present at ledger dates). -/
def get_loan_paydown (l : Loan) (paydown_date : Date) : ℚ := l.loan_paydowns paydown_date

/-- `Loan.get_scheduled_principal_payment`.  This helper implements the
interest-only rule, but `generate_loan_schedule` never calls it. -/
def get_scheduled_principal_payment (l : Loan) (period : ℤ)
    (amortizing_payment interest_payment : ℚ) : ℚ :=
  if period ≤ l.interest_only_periods then 0
  else amortizing_payment - interest_payment

/-- The body of the `else` branch of the loop in `generate_loan_schedule` for
one period: `prior_key` and the prior ending balance (`beginning`) are carried
in from the previous iteration.  The local recomputation of the level payment
from the current beginning balance (source line 119) is dead: the scheduled
principal uses `self.amortizing_payment` instead. -/
def genPeriod (l : Loan) (prior_key key : Date) (beginning : ℚ) : Period :=
  let _amortizing_payment_local := calculate_amortizing_payment l.rate l.amortizing_periods beginning
  let draw := get_loan_draw l key
  let interest := calculate_interest l.rate l.payment_type beginning prior_key key
  let sched := if l.amortizing_periods = 0 then 0 else l.amortizing_payment - interest
  let paydown := if key = l.maturity_date then beginning - sched else get_loan_paydown l key
  { beginning_balance := beginning
    loan_draw := draw
    loan_paydown := paydown
    interest_payment := interest
    scheduled_principal_payment := sched
    ending_balance := beginning + draw - paydown - sched }

/-- The rest of the loop of `generate_loan_schedule` (all iterations with
`i > 0`), threading `(prior_key, prior ending balance)` exactly as the source
threads `prior_key` and `schedule[prior_key]['ending_balance']`.  Also returns
the final `(prior_key, prior ending balance)` state, which makes splitting a
run at a date straightforward. -/
def genRun (l : Loan) (prior_key : Date) (prior_end : ℚ) :
    List Date → List (Date × Period) × Date × ℚ
  | [] => ([], prior_key, prior_end)
  | key :: rest =>
    let p := genPeriod l prior_key key prior_end
    let t := genRun l key p.ending_balance rest
    ((key, p) :: t.1, t.2)

/-- `Loan.generate_loan_schedule`.  The `i == 0` iteration writes only
`beginning_balance`, `loan_draw` and `ending_balance`; the other three fields
of the first period keep the zeros `initialize_loan_schedule` put there (no
iteration ever writes them).  `prior_key` starts at `self.fund_date` and is
only advanced inside the `else` branch. -/
def generate_loan_schedule (l : Loan) : List (Date × Period) :=
  match l.monthly_dates with
  | [] => []
  | key :: rest =>
    (key, { beginning_balance := 0
            loan_draw := l.loan_amount
            loan_paydown := 0
            interest_payment := 0
            scheduled_principal_payment := 0
            ending_balance := l.loan_amount }) ::
      (genRun l l.fund_date l.loan_amount rest).1

/-- `Loan.add_loan_draw`: dict assignment (total: it inserts or overwrites,
and never raises), then a full schedule regeneration. -/
def add_loan_draw (l : Loan) (draw : ℚ) (draw_date : Date) : Loan :=
  let l2 := { l with loan_draws := fun k => if k = draw_date then draw else l.loan_draws k }
  { l2 with schedule := generate_loan_schedule l2 }

/-- `Loan.add_loan_paydown`: dict assignment, then a full regeneration. -/
def add_loan_paydown (l : Loan) (paydown : ℚ) (paydown_date : Date) : Loan :=
  let l2 := { l with loan_paydowns := fun k => if k = paydown_date then paydown else l.loan_paydowns k }
  { l2 with schedule := generate_loan_schedule l2 }

/-- Default entry used with `List.getD` when indexing schedules. -/
def defaultEntry : Date × Period := (⟨0, 0, 0⟩, zeroPeriod)

/-! ### Structural lemmas about the generator loop -/

lemma genRun_fst_length (l : Loan) :
    ∀ (ds : List Date) (pk : Date) (pe : ℚ), ((genRun l pk pe ds).1).length = ds.length := by
  intro ds
  induction ds with
  | nil => intro pk pe; rfl
  | cons k rest ih => intro pk pe; simp [genRun, ih]

lemma genRun_getD_zero_beginning (l : Loan) (pk : Date) (pe : ℚ) (ds : List Date)
    (h : ds ≠ []) :
    (((genRun l pk pe ds).1.getD 0 defaultEntry)).2.beginning_balance = pe := by
  cases ds with
  | nil => exact absurd rfl h
  | cons k rest => rfl

lemma genRun_continuity (l : Loan) :
    ∀ (ds : List Date) (pk : Date) (pe : ℚ) (j : ℕ), j + 1 < ds.length →
      ((genRun l pk pe ds).1.getD (j + 1) defaultEntry).2.beginning_balance
        = ((genRun l pk pe ds).1.getD j defaultEntry).2.ending_balance := by
  intro ds
  induction ds with
  | nil => intro pk pe j h; simp at h
  | cons k rest ih =>
    intro pk pe j h
    cases j with
    | zero =>
      simp only [genRun, List.getD_cons_succ, List.getD_cons_zero]
      refine genRun_getD_zero_beginning l k _ rest ?_
      cases rest with
      | nil => simp at h
      | cons a b => simp
    | succ jj =>
      simp only [genRun, List.getD_cons_succ]
      exact ih k _ jj (by simpa using h)

lemma genRun_mem_identity (l : Loan) :
    ∀ (ds : List Date) (pk : Date) (pe : ℚ) (x : Date × Period), x ∈ (genRun l pk pe ds).1 →
      x.2.ending_balance = x.2.beginning_balance + x.2.loan_draw - x.2.loan_paydown
        - x.2.scheduled_principal_payment := by
  intro ds
  induction ds with
  | nil => intro pk pe x hx; simp [genRun] at hx
  | cons k rest ih =>
    intro pk pe x hx
    simp only [genRun, List.mem_cons] at hx
    rcases hx with h | h
    · subst h; rfl
    · exact ih k _ x h

lemma genRun_mem_sched (l : Loan) :
    ∀ (ds : List Date) (pk : Date) (pe : ℚ) (x : Date × Period), x ∈ (genRun l pk pe ds).1 →
      x.2.scheduled_principal_payment
        = if l.amortizing_periods = 0 then 0
          else l.amortizing_payment - x.2.interest_payment := by
  intro ds
  induction ds with
  | nil => intro pk pe x hx; simp [genRun] at hx
  | cons k rest ih =>
    intro pk pe x hx
    simp only [genRun, List.mem_cons] at hx
    rcases hx with h | h
    · subst h; rfl
    · exact ih k _ x h

lemma genRun_mem_maturity (l : Loan) :
    ∀ (ds : List Date) (pk : Date) (pe : ℚ) (x : Date × Period), x ∈ (genRun l pk pe ds).1 →
      x.1 = l.maturity_date →
      x.2.loan_paydown = x.2.beginning_balance - x.2.scheduled_principal_payment ∧
      x.2.ending_balance = l.loan_draws x.1 := by
  intro ds
  induction ds with
  | nil => intro pk pe x hx; simp [genRun] at hx
  | cons k rest ih =>
    intro pk pe x hx hk
    simp only [genRun, List.mem_cons] at hx
    rcases hx with h | h
    · subst h
      simp only [genPeriod, get_loan_draw, get_loan_paydown] at hk ⊢
      constructor
      · simp [hk]
      · simp [hk]
    · exact ih k _ x h hk

lemma genRun_getD_mem (l : Loan) (ds : List Date) (pk : Date) (pe : ℚ) (j : ℕ)
    (h : j < ds.length) :
    (genRun l pk pe ds).1.getD j defaultEntry ∈ (genRun l pk pe ds).1 := by
  have hlen : j < ((genRun l pk pe ds).1).length := by rw [genRun_fst_length]; exact h
  rw [List.getD_eq_getElem _ _ hlen]
  exact List.getElem_mem hlen

lemma genRun_agree (l l2 : Loan)
    (hr : l2.rate = l.rate) (hpt : l2.payment_type = l.payment_type)
    (hap : l2.amortizing_periods = l.amortizing_periods)
    (hpay : l2.amortizing_payment = l.amortizing_payment)
    (hmd : l2.maturity_date = l.maturity_date) :
    ∀ (ds : List Date) (pk : Date) (pe : ℚ),
      (∀ k ∈ ds, l2.loan_draws k = l.loan_draws k) →
      (∀ k ∈ ds, l2.loan_paydowns k = l.loan_paydowns k) →
      genRun l2 pk pe ds = genRun l pk pe ds := by
  intro ds
  induction ds with
  | nil => intro pk pe _ _; rfl
  | cons k rest ih =>
    intro pk pe hd hp
    have hper : genPeriod l2 pk k pe = genPeriod l pk k pe := by
      simp [genPeriod, get_loan_draw, get_loan_paydown, hr, hpt, hap, hpay, hmd,
        hd k (List.mem_cons_self k rest), hp k (List.mem_cons_self k rest)]
    have hrest : genRun l2 k (genPeriod l pk k pe).ending_balance rest
        = genRun l k (genPeriod l pk k pe).ending_balance rest :=
      ih k _ (fun a ha => hd a (List.mem_cons_of_mem _ ha))
        (fun a ha => hp a (List.mem_cons_of_mem _ ha))
    simp [genRun, hper, hrest]

lemma genRun_append (l : Loan) :
    ∀ (a b : List Date) (pk : Date) (pe : ℚ),
      genRun l pk pe (a ++ b)
        = ((genRun l pk pe a).1
            ++ (genRun l (genRun l pk pe a).2.1 (genRun l pk pe a).2.2 b).1,
           (genRun l (genRun l pk pe a).2.1 (genRun l pk pe a).2.2 b).2) := by
  intro a
  induction a with
  | nil => intro b pk pe; simp [genRun]
  | cons k rest ih => intro b pk pe; simp [genRun, ih]

/-! ### The effect of one extra draw on an `amortizing_periods = 0` schedule -/

/-- How one period changes when every prior balance is `A` larger, in a loan
with `amortizing_periods = 0` (scheduled principal identically zero): the
beginning balance grows by `A`, interest is recomputed on the grown balance,
and the ending balance grows by `A` — except at the maturity date, where the
forced payoff absorbs the extra `A` into the paydown and leaves the ending
balance unchanged.  `pk` threads the predecessor date for the interest
recomputation. -/
def shiftPs (l : Loan) (A : ℚ) : Date → List (Date × Period) → List (Date × Period)
  | _, [] => []
  | pk, x :: xs =>
    (x.1,
      if x.1 = l.maturity_date then
        { x.2 with
          beginning_balance := x.2.beginning_balance + A
          interest_payment :=
            calculate_interest l.rate l.payment_type (x.2.beginning_balance + A) pk x.1
          loan_paydown := x.2.loan_paydown + A }
      else
        { x.2 with
          beginning_balance := x.2.beginning_balance + A
          interest_payment :=
            calculate_interest l.rate l.payment_type (x.2.beginning_balance + A) pk x.1
          ending_balance := x.2.ending_balance + A }) :: shiftPs l A x.1 xs

/-- How the suffix of the schedule starting at the draw date changes when a
draw of `A` is added at that date (the date previously had draw `0`): the draw
period itself keeps its beginning balance and interest but gains `A` of draw
and of ending balance, and every later period is shifted per `shiftPs`. -/
def applyDraw (l : Loan) (A : ℚ) : List (Date × Period) → List (Date × Period)
  | [] => []
  | x :: xs =>
    (x.1, { x.2 with loan_draw := A, ending_balance := x.2.ending_balance + A })
      :: shiftPs l A x.1 xs

lemma genRun_shift (l l2 : Loan) (A : ℚ)
    (hr : l2.rate = l.rate) (hpt : l2.payment_type = l.payment_type)
    (hap2 : l2.amortizing_periods = l.amortizing_periods)
    (hap : l.amortizing_periods = 0)
    (hmd : l2.maturity_date = l.maturity_date)
    (hpd : ∀ k, l2.loan_paydowns k = l.loan_paydowns k) :
    ∀ (mid : List Date), (∀ k ∈ mid, k ≠ l.maturity_date) →
      (∀ k ∈ mid, l2.loan_draws k = l.loan_draws k) →
      l2.loan_draws l.maturity_date = l.loan_draws l.maturity_date →
      ∀ (pk : Date) (pe : ℚ),
      (genRun l2 pk (pe + A) (mid ++ [l.maturity_date])).1
        = shiftPs l A pk (genRun l pk pe (mid ++ [l.maturity_date])).1 := by
  intro mid
  induction mid with
  | nil =>
    intro _ _ hmat pk pe
    simp only [List.nil_append, genRun, shiftPs]
    refine congrArg (fun q => [(l.maturity_date, q)]) ?_
    have hsched : (if l2.amortizing_periods = 0 then (0 : ℚ)
        else l2.amortizing_payment
          - calculate_interest l2.rate l2.payment_type (pe + A) pk l.maturity_date) = 0 := by
      rw [hap2, hap]; simp
    ext <;>
      simp [genPeriod, get_loan_draw, get_loan_paydown, hr, hpt, hap2, hap, hmd, hpd, hmat]
  | cons k rest ih =>
    intro hmat hdr hmdr pk pe
    have hk : k ≠ l.maturity_date := hmat k (List.mem_cons_self k rest)
    simp only [List.cons_append, genRun, shiftPs]
    have hper : genPeriod l2 pk k (pe + A)
        = (fun x : Date × Period =>
            { x.2 with
              beginning_balance := x.2.beginning_balance + A
              interest_payment :=
                calculate_interest l.rate l.payment_type (x.2.beginning_balance + A) pk k
              ending_balance := x.2.ending_balance + A }) (k, genPeriod l pk k pe) := by
      ext <;>
        (simp [genPeriod, get_loan_draw, get_loan_paydown, hr, hpt, hap2, hap, hmd, hpd, hk,
          hdr k (List.mem_cons_self k rest)]; try ring)
    have hend : (genPeriod l2 pk k (pe + A)).ending_balance
        = (genPeriod l pk k pe).ending_balance + A := by rw [hper]
    rw [hend]
    have htail := ih (fun a ha => hmat a (List.mem_cons_of_mem _ ha))
      (fun a ha => hdr a (List.mem_cons_of_mem _ ha)) hmdr k
      ((genPeriod l pk k pe).ending_balance)
    simp only [List.append_eq] at *
    rw [htail]
    refine congrArg (fun q => (k, q) :: _) ?_
    rw [hper, if_neg hk]

/-! ### Lemmas about `generate_loan_schedule` and the constructor -/

/-- The first row written by the `i == 0` branch of the loop. -/
def firstPeriodOf (la : ℚ) : Period :=
  { beginning_balance := 0
    loan_draw := la
    loan_paydown := 0
    interest_payment := 0
    scheduled_principal_payment := 0
    ending_balance := la }

lemma generate_eq_cons (l : Loan) (k : Date) (rest : List Date)
    (hm : l.monthly_dates = k :: rest) :
    generate_loan_schedule l
      = (k, firstPeriodOf l.loan_amount) :: (genRun l l.fund_date l.loan_amount rest).1 := by
  unfold generate_loan_schedule
  rw [hm]
  rfl

lemma generate_eq_nil (l : Loan) (hm : l.monthly_dates = []) :
    generate_loan_schedule l = [] := by
  unfold generate_loan_schedule
  rw [hm]

lemma generate_agree (l l2 : Loan)
    (hla : l2.loan_amount = l.loan_amount) (hfd : l2.fund_date = l.fund_date)
    (hmdl : l2.monthly_dates = l.monthly_dates)
    (hr : l2.rate = l.rate) (hpt : l2.payment_type = l.payment_type)
    (hap : l2.amortizing_periods = l.amortizing_periods)
    (hpay : l2.amortizing_payment = l.amortizing_payment)
    (hmd : l2.maturity_date = l.maturity_date)
    (hdr : ∀ k ∈ l.monthly_dates, l2.loan_draws k = l.loan_draws k)
    (hpd : ∀ k ∈ l.monthly_dates, l2.loan_paydowns k = l.loan_paydowns k) :
    generate_loan_schedule l2 = generate_loan_schedule l := by
  cases hm : l.monthly_dates with
  | nil => rw [generate_eq_nil l hm, generate_eq_nil l2 (hmdl.trans hm)]
  | cons k rest =>
    rw [generate_eq_cons l k rest hm, generate_eq_cons l2 k rest (hmdl.trans hm), hla, hfd]
    rw [genRun_agree l l2 hr hpt hap hpay hmd rest l.fund_date l.loan_amount
      (fun a ha => hdr a (hm ▸ List.mem_cons_of_mem _ ha))
      (fun a ha => hpd a (hm ▸ List.mem_cons_of_mem _ ha))]

lemma mkLoan_ok_elim (la r : ℚ) (fd md : Date) (pt : String) (iop ap : ℤ) (l : Loan)
    (h : mkLoan la r fd md pt iop ap = Except.ok l) :
    l = loanOf la r fd md pt iop ap := by
  unfold mkLoan at h
  split_ifs at h with h1 h2 h3 h4
  injection h with h5
  exact h5.symm

lemma mkLoan_ok_lt (la r : ℚ) (fd md : Date) (pt : String) (iop ap : ℤ) (l : Loan)
    (h : mkLoan la r fd md pt iop ap = Except.ok l) : dateLt fd md := by
  unfold mkLoan at h
  split_ifs at h with h1 h2 h3 h4
  exact h3

lemma add_months_eom_zero (d : Date) (h1 : 1 ≤ d.month) (h2 : d.month ≤ 12) :
    add_months_eom d 0 = get_end_of_month d := by
  have hdiv : (d.year * 12 + (d.month - 1) + 0) / 12 = d.year := by omega
  have hmod : (d.year * 12 + (d.month - 1) + 0) % 12 + 1 = d.month := by omega
  simp only [add_months_eom, get_end_of_month]
  rw [hdiv, hmod]

lemma n_periods_pos (fd md : Date) (hf1 : 1 ≤ fd.month) (hf2 : fd.month ≤ 12)
    (hm1 : 1 ≤ md.month) (hm2 : md.month ≤ 12) (hlt : dateLt fd md) :
    1 ≤ n_periods fd md := by
  unfold n_periods
  rcases hlt with h | ⟨hy, h⟩
  · omega
  · rcases h with h | ⟨hm, _⟩ <;> omega

/-- `monthly_dates` of a constructed loan is nonempty, and its head is the
normalized funding date. -/
lemma monthly_dates_loanOf (la r : ℚ) (fd md : Date) (pt : String) (iop ap : ℤ)
    (hwf : WFDate fd) (hwm : WFDate md) (hlt : dateLt fd md) :
    ∃ rest, (loanOf la r fd md pt iop ap).monthly_dates = get_end_of_month fd :: rest := by
  have hfd : (get_end_of_month fd).month = fd.month := rfl
  have hmd : (get_end_of_month md).month = md.month := rfl
  have hlt2 : dateLt (get_end_of_month fd) (get_end_of_month md) ∨
      ((get_end_of_month fd).year = (get_end_of_month md).year ∧
        (get_end_of_month fd).month = (get_end_of_month md).month) := by
    rcases hlt with h | ⟨hy, h⟩
    · exact Or.inl (Or.inl h)
    · rcases h with h | ⟨hm, _⟩
      · exact Or.inl (Or.inr ⟨hy, Or.inl h⟩)
      · exact Or.inr ⟨hy, hm⟩
  have hn : 1 ≤ n_periods (get_end_of_month fd) (get_end_of_month md) := by
    unfold n_periods
    show 1 ≤ (((md.year : ℤ) - (fd.year : ℤ)) * 12 + (md.month : ℤ) - (fd.month : ℤ) + 1).toNat
    obtain ⟨h1, h2, _, _⟩ := hwf
    obtain ⟨h3, h4, _, _⟩ := hwm
    rcases hlt with h | ⟨hy, h⟩
    · omega
    · rcases h with h | ⟨hm, _⟩ <;> omega
  obtain ⟨n, hn⟩ : ∃ n, n_periods (get_end_of_month fd) (get_end_of_month md) = n + 1 :=
    ⟨_, (Nat.succ_pred_eq_of_pos hn).symm⟩
  refine ⟨((List.range n).map
    (fun i => add_months_eom (get_end_of_month fd) (i + 1))), ?_⟩
  show monthly_dates_of (get_end_of_month fd) (get_end_of_month md) = _
  unfold monthly_dates_of
  rw [hn, List.range_succ_eq_map]
  simp only [List.map_cons, List.map_map]
  rw [add_months_eom_zero]
  · rfl
  · exact hwf.1
  · exact hwf.2.1

/-! ### Claim theorems -/

/-- C9: for every balance `b`, `calculate_amortizing_payment` returns `0` when
`amortizing_periods = 0`; returns `b / amortizing_periods` when the monthly
rate (`rate / 12`) is `0` and `amortizing_periods > 0` (the source takes this
straight-line branch for every nonzero period count); and otherwise (nonzero
monthly rate, nonzero period count — the only case in which the source reaches
the annuity branch) returns `b * (m * (1+m)^n) / ((1+m)^n - 1)` with
`m = rate / 12` and `n = amortizing_periods`, the original configured count. -/
theorem C9_level_payment (r b : ℚ) (n : ℤ) :
    (n = 0 → calculate_amortizing_payment r n b = 0) ∧
    (r / 12 = 0 → 0 < n → calculate_amortizing_payment r n b = b / (n : ℚ)) ∧
    (r / 12 ≠ 0 → n ≠ 0 →
      calculate_amortizing_payment r n b
        = b * ((r / 12) * (1 + r / 12) ^ n) / ((1 + r / 12) ^ n - 1)) := by
  refine ⟨fun h => by simp [calculate_amortizing_payment, h], fun hm hn => ?_, fun hm hn => ?_⟩
  · have hn0 : ¬ n = 0 := by omega
    simp [calculate_amortizing_payment, hn0, hm]
  · simp [calculate_amortizing_payment, hn, hm]

/-- Witness for C9 at concrete inputs: a zero-rate loan over 4 periods pays
straight-line, a 12% loan over 2 periods pays the annuity formula, and a
zero-amortization loan pays 0. -/
theorem C9_witness :
    calculate_amortizing_payment 0 4 100 = 100 / (4 : ℚ) ∧
    calculate_amortizing_payment (3/25) 2 1000000
      = 1000000 * ((3/25/12) * (1 + 3/25/12) ^ (2 : ℤ)) / ((1 + 3/25/12) ^ (2 : ℤ) - 1) ∧
    calculate_amortizing_payment (1/10) 0 500 = 0 :=
  ⟨(C9_level_payment 0 100 4).2.1 (by norm_num) (by norm_num),
   (C9_level_payment (3/25) 1000000 2).2.2 (by norm_num) (by norm_num),
   (C9_level_payment (1/10) 500 0).1 rfl⟩

/-- C8: construction fails (raises) exactly when the principal is nonpositive,
the rate is outside `[0, 1]`, the raw funding date is not strictly before the
raw maturity date, or the day-count convention is unrecognized; on every other
input — including negative interest-only or amortizing period counts —
construction succeeds and produces the complete loan object `loanOf ...`. -/
theorem C8_validation (la r : ℚ) (fd md : Date) (pt : String) (iop ap : ℤ) :
    ((∃ e, mkLoan la r fd md pt iop ap = Except.error e) ↔
      (la ≤ 0 ∨ r < 0 ∨ 1 < r ∨ ¬ dateLt fd md ∨ pt ∉ payment_types)) ∧
    (¬ (la ≤ 0 ∨ r < 0 ∨ 1 < r ∨ ¬ dateLt fd md ∨ pt ∉ payment_types) →
      mkLoan la r fd md pt iop ap = Except.ok (loanOf la r fd md pt iop ap)) := by
  unfold mkLoan
  split_ifs with h1 h2 h3 h4 <;>
    refine ⟨⟨fun hh => ?_, fun hh => ?_⟩, fun hh => ?_⟩ <;>
      simp_all <;>
        first
          | tauto
          | linarith
          | (rcases h2 with h | h <;> linarith [hh.1, hh.2.1])
          | (rcases hh with h | h | h <;> linarith [h2.1, h2.2])

/-- Witness for C8: a loan with negative interest-only and amortizing period
counts still constructs successfully. -/
theorem C8_witness :
    mkLoan 100 0 ⟨2024, 1, 1⟩ ⟨2024, 3, 1⟩ "30/360" (-1) (-5)
      = Except.ok (loanOf 100 0 ⟨2024, 1, 1⟩ ⟨2024, 3, 1⟩ "30/360" (-1) (-5)) :=
  (C8_validation 100 0 ⟨2024, 1, 1⟩ ⟨2024, 3, 1⟩ "30/360" (-1) (-5)).2 (by decide)

/-- C5: in every generated schedule, every period after the first satisfies
the accounting identity
`ending = beginning + draw - paydown - scheduled_principal`
and the continuity property `beginning[i] = ending[i-1]`. -/
theorem C5_invariants (l : Loan) (j : ℕ) (h2 : j + 1 < (generate_loan_schedule l).length) :
    (((generate_loan_schedule l).getD (j + 1) defaultEntry).2.ending_balance
        = ((generate_loan_schedule l).getD (j + 1) defaultEntry).2.beginning_balance
          + ((generate_loan_schedule l).getD (j + 1) defaultEntry).2.loan_draw
          - ((generate_loan_schedule l).getD (j + 1) defaultEntry).2.loan_paydown
          - ((generate_loan_schedule l).getD (j + 1) defaultEntry).2.scheduled_principal_payment) ∧
    ((generate_loan_schedule l).getD (j + 1) defaultEntry).2.beginning_balance
        = ((generate_loan_schedule l).getD j defaultEntry).2.ending_balance := by
  cases hm : l.monthly_dates with
  | nil =>
    rw [generate_eq_nil l hm] at h2
    simp at h2
  | cons k rest =>
    rw [generate_eq_cons l k rest hm] at h2 ⊢
    simp only [List.length_cons] at h2
    have hj : j < rest.length := by
      have := genRun_fst_length l rest l.fund_date l.loan_amount
      omega
    constructor
    · simp only [List.getD_cons_succ]
      exact genRun_mem_identity l rest _ _ _ (genRun_getD_mem l rest _ _ j hj)
    · cases j with
      | zero =>
        simp only [List.getD_cons_succ, List.getD_cons_zero]
        refine genRun_getD_zero_beginning l _ _ rest ?_
        rintro rfl
        simp at hj
      | succ jj =>
        simp only [List.getD_cons_succ]
        exact genRun_continuity l rest _ _ jj (by omega)

/-- Witness for C5 on a concrete three-period loan at period 2. -/
theorem C5_witness :
    1 + 1 < (generate_loan_schedule
        (loanOf 1000000 (1/20) ⟨2024, 1, 15⟩ ⟨2024, 3, 20⟩ "30/360" 0 0)).length ∧
    ((((generate_loan_schedule
          (loanOf 1000000 (1/20) ⟨2024, 1, 15⟩ ⟨2024, 3, 20⟩ "30/360" 0 0)).getD (1 + 1)
            defaultEntry).2.ending_balance
        = (((generate_loan_schedule
            (loanOf 1000000 (1/20) ⟨2024, 1, 15⟩ ⟨2024, 3, 20⟩ "30/360" 0 0)).getD (1 + 1)
              defaultEntry).2.beginning_balance)
          + (((generate_loan_schedule
              (loanOf 1000000 (1/20) ⟨2024, 1, 15⟩ ⟨2024, 3, 20⟩ "30/360" 0 0)).getD (1 + 1)
                defaultEntry).2.loan_draw)
          - (((generate_loan_schedule
              (loanOf 1000000 (1/20) ⟨2024, 1, 15⟩ ⟨2024, 3, 20⟩ "30/360" 0 0)).getD (1 + 1)
                defaultEntry).2.loan_paydown)
          - (((generate_loan_schedule
              (loanOf 1000000 (1/20) ⟨2024, 1, 15⟩ ⟨2024, 3, 20⟩ "30/360" 0 0)).getD (1 + 1)
                defaultEntry).2.scheduled_principal_payment)) ∧
      ((generate_loan_schedule
          (loanOf 1000000 (1/20) ⟨2024, 1, 15⟩ ⟨2024, 3, 20⟩ "30/360" 0 0)).getD (1 + 1)
            defaultEntry).2.beginning_balance
        = ((generate_loan_schedule
            (loanOf 1000000 (1/20) ⟨2024, 1, 15⟩ ⟨2024, 3, 20⟩ "30/360" 0 0)).getD 1
              defaultEntry).2.ending_balance) :=
  ⟨by decide, C5_invariants (loanOf 1000000 (1/20) ⟨2024, 1, 15⟩ ⟨2024, 3, 20⟩ "30/360" 0 0) 1
    (by decide)⟩

/-- C1 (amended): for every loan with `amortizing_periods ≠ 0` and every
period after the first, the generated scheduled principal equals
`self.amortizing_payment - interest[i]`, where `amortizing_payment` is the
level payment computed ONCE at construction from the ORIGINAL principal (and
the original amortizing-period count) — not recomputed from the period's own
beginning balance.  (The per-period recomputation on source line 119 is
assigned to a local variable that is never used.) -/
theorem C1_amended (l : Loan) (hap : l.amortizing_periods ≠ 0) (j : ℕ)
    (h2 : j + 1 < (generate_loan_schedule l).length) :
    (((generate_loan_schedule l).getD (j + 1) defaultEntry).2.scheduled_principal_payment
        = l.amortizing_payment
          - ((generate_loan_schedule l).getD (j + 1) defaultEntry).2.interest_payment) ∧
    ∀ (la r : ℚ) (fd md : Date) (pt : String) (iop ap : ℤ),
      mkLoan la r fd md pt iop ap = Except.ok l →
      l.amortizing_payment = calculate_amortizing_payment r ap la := by
  constructor
  · cases hm : l.monthly_dates with
    | nil =>
      rw [generate_eq_nil l hm] at h2
      simp at h2
    | cons k rest =>
      rw [generate_eq_cons l k rest hm] at h2 ⊢
      simp only [List.length_cons] at h2
      have hj : j < rest.length := by
        have := genRun_fst_length l rest l.fund_date l.loan_amount
        omega
      simp only [List.getD_cons_succ]
      have hs := genRun_mem_sched l rest l.fund_date l.loan_amount _
        (genRun_getD_mem l rest l.fund_date l.loan_amount j hj)
      rw [hs, if_neg hap]
  · intro la r fd md pt iop ap hok
    rw [mkLoan_ok_elim la r fd md pt iop ap l hok]
    rfl

/-- Counterexample to C1 as stated: for the 12% two-period amortizing loan
funded 2024-01-31 and maturing 2024-03-31, the schedule's period 2 scheduled
principal does NOT equal `LevelPayment(beginning_balance[2]) - interest[2]`
(the level payment recomputed from that period's own beginning balance):
the code uses the construction-time payment from the original principal. -/
theorem C1_counterexample :
    ((generate_loan_schedule
          (loanOf 1000000 (3/25) ⟨2024, 1, 31⟩ ⟨2024, 3, 31⟩ "30/360" 0 2)).getD 2
            defaultEntry).2.scheduled_principal_payment
      ≠ calculate_amortizing_payment (3/25) 2
          (((generate_loan_schedule
              (loanOf 1000000 (3/25) ⟨2024, 1, 31⟩ ⟨2024, 3, 31⟩ "30/360" 0 2)).getD 2
                defaultEntry).2.beginning_balance)
        - ((generate_loan_schedule
            (loanOf 1000000 (3/25) ⟨2024, 1, 31⟩ ⟨2024, 3, 31⟩ "30/360" 0 2)).getD 2
              defaultEntry).2.interest_payment := by
  have hr : List.range 3 = [0, 1, 2] := rfl
  have h3 : (3 : ℤ).toNat = 3 := rfl
  have hs1 : ¬ ("30/360" = "Actual/360") := by decide
  norm_num [generate_loan_schedule, genRun, genPeriod, loanOf, monthly_dates_of, n_periods,
    add_months_eom, get_end_of_month, daysInMonth, isLeap, calculate_interest,
    calculate_amortizing_payment, get_loan_draw, get_loan_paydown, toOrdinal, daysBeforeMonth,
    defaultEntry, zeroPeriod, payment_types, h3, hr, hs1]

/-- Witness for the amended C1 on the same concrete loan at period 1. -/
theorem C1_witness :
    (loanOf 1000000 (3/25) ⟨2024, 1, 31⟩ ⟨2024, 3, 31⟩ "30/360" 0 2).amortizing_periods ≠ 0 ∧
    0 + 1 < (generate_loan_schedule
        (loanOf 1000000 (3/25) ⟨2024, 1, 31⟩ ⟨2024, 3, 31⟩ "30/360" 0 2)).length ∧
    ((((generate_loan_schedule
          (loanOf 1000000 (3/25) ⟨2024, 1, 31⟩ ⟨2024, 3, 31⟩ "30/360" 0 2)).getD (0 + 1)
            defaultEntry).2.scheduled_principal_payment
        = (loanOf 1000000 (3/25) ⟨2024, 1, 31⟩ ⟨2024, 3, 31⟩ "30/360" 0 2).amortizing_payment
          - ((generate_loan_schedule
              (loanOf 1000000 (3/25) ⟨2024, 1, 31⟩ ⟨2024, 3, 31⟩ "30/360" 0 2)).getD (0 + 1)
                defaultEntry).2.interest_payment) ∧
      ∀ (la r : ℚ) (fd md : Date) (pt : String) (iop ap : ℤ),
        mkLoan la r fd md pt iop ap
          = Except.ok (loanOf 1000000 (3/25) ⟨2024, 1, 31⟩ ⟨2024, 3, 31⟩ "30/360" 0 2) →
        (loanOf 1000000 (3/25) ⟨2024, 1, 31⟩ ⟨2024, 3, 31⟩ "30/360" 0 2).amortizing_payment
          = calculate_amortizing_payment r ap la) :=
  ⟨by decide, by decide,
    C1_amended (loanOf 1000000 (3/25) ⟨2024, 1, 31⟩ ⟨2024, 3, 31⟩ "30/360" 0 2)
      (by decide) 0 (by decide)⟩

/-- C2 (code bug): the loan funded 2024-01-31, maturing 2024-03-31, with
`interest_only_periods = 1` and `amortizing_periods = 2`, has a NONZERO
scheduled principal at period 1 even though `1 ≤ interest_only_periods` —
`generate_loan_schedule` never consults `interest_only_periods` — while the
never-called helper `get_scheduled_principal_payment` (which implements the
claimed interest-only rule) returns `0` for that same period. -/
theorem C2_code_eval :
    (0 : ℤ) < (loanOf 1000000 (3/25) ⟨2024, 1, 31⟩ ⟨2024, 3, 31⟩ "30/360" 1 2).interest_only_periods ∧
    ((generate_loan_schedule
          (loanOf 1000000 (3/25) ⟨2024, 1, 31⟩ ⟨2024, 3, 31⟩ "30/360" 1 2)).getD 1
            defaultEntry).2.scheduled_principal_payment ≠ 0 ∧
    get_scheduled_principal_payment
        (loanOf 1000000 (3/25) ⟨2024, 1, 31⟩ ⟨2024, 3, 31⟩ "30/360" 1 2) 1
        (loanOf 1000000 (3/25) ⟨2024, 1, 31⟩ ⟨2024, 3, 31⟩ "30/360" 1 2).amortizing_payment
        (((generate_loan_schedule
            (loanOf 1000000 (3/25) ⟨2024, 1, 31⟩ ⟨2024, 3, 31⟩ "30/360" 1 2)).getD 1
              defaultEntry).2.interest_payment)
      = 0 := by
  have hr : List.range 3 = [0, 1, 2] := rfl
  have h3 : (3 : ℤ).toNat = 3 := rfl
  have hs1 : ¬ ("30/360" = "Actual/360") := by decide
  refine ⟨by decide, ?_, ?_⟩ <;>
    norm_num [generate_loan_schedule, genRun, genPeriod, loanOf, monthly_dates_of, n_periods,
      add_months_eom, get_end_of_month, daysInMonth, isLeap, calculate_interest,
      calculate_amortizing_payment, get_loan_draw, get_loan_paydown, toOrdinal, daysBeforeMonth,
      defaultEntry, zeroPeriod, payment_types, get_scheduled_principal_payment, h3, hr, hs1]

/-- C4 (amended): in every generated schedule, any period after the first
whose date equals `maturity_date` has its paydown forced to
`beginning - scheduled_principal`, so its ending balance equals the DRAW
override at the maturity date — which is `0` (full retirement) exactly when no
draw has been set at maturity. -/
theorem C4_amended (l : Loan) (j : ℕ) (h2 : j + 1 < (generate_loan_schedule l).length)
    (hk : ((generate_loan_schedule l).getD (j + 1) defaultEntry).1 = l.maturity_date) :
    ((generate_loan_schedule l).getD (j + 1) defaultEntry).2.loan_paydown
        = ((generate_loan_schedule l).getD (j + 1) defaultEntry).2.beginning_balance
          - ((generate_loan_schedule l).getD (j + 1) defaultEntry).2.scheduled_principal_payment ∧
    ((generate_loan_schedule l).getD (j + 1) defaultEntry).2.ending_balance
        = l.loan_draws l.maturity_date := by
  cases hm : l.monthly_dates with
  | nil =>
    rw [generate_eq_nil l hm] at h2
    simp at h2
  | cons k rest =>
    rw [generate_eq_cons l k rest hm] at h2 hk ⊢
    simp only [List.length_cons] at h2
    have hj : j < rest.length := by
      have := genRun_fst_length l rest l.fund_date l.loan_amount
      omega
    simp only [List.getD_cons_succ] at hk ⊢
    have hmem := genRun_getD_mem l rest l.fund_date l.loan_amount j hj
    have hmat := genRun_mem_maturity l rest _ _ _ hmem hk
    rw [← hk]
    exact hmat

/-- Counterexample to C4 as stated: adding a draw of 100 at the maturity date
of a three-period zero-amortization loan leaves the maturity period with
ending balance 100, not 0 — the forced payoff only retires the pre-draw
balance. -/
theorem C4_counterexample :
    ((add_loan_draw (loanOf 1000000 (1/20) ⟨2024, 1, 31⟩ ⟨2024, 3, 31⟩ "30/360" 0 0)
          100 ⟨2024, 3, 31⟩).schedule.getD 2 defaultEntry).1 = ⟨2024, 3, 31⟩ ∧
    ((add_loan_draw (loanOf 1000000 (1/20) ⟨2024, 1, 31⟩ ⟨2024, 3, 31⟩ "30/360" 0 0)
          100 ⟨2024, 3, 31⟩).schedule.getD 2 defaultEntry).2.ending_balance = 100 := by
  have hr : List.range 3 = [0, 1, 2] := rfl
  have h3 : (3 : ℤ).toNat = 3 := rfl
  have hs1 : ¬ ("30/360" = "Actual/360") := by decide
  refine ⟨by decide, ?_⟩
  norm_num [add_loan_draw, generate_loan_schedule, genRun, genPeriod, loanOf, monthly_dates_of,
    n_periods, add_months_eom, get_end_of_month, daysInMonth, isLeap, calculate_interest,
    calculate_amortizing_payment, get_loan_draw, get_loan_paydown, toOrdinal, daysBeforeMonth,
    defaultEntry, zeroPeriod, payment_types, h3, hr, hs1]

/-- Witness for the amended C4 on a concrete three-period loan with no draw at
maturity: the maturity period pays down everything and ends at the (zero) draw
override. -/
theorem C4_witness :
    1 + 1 < (generate_loan_schedule
        (loanOf 1000000 (1/20) ⟨2024, 1, 20⟩ ⟨2024, 3, 25⟩ "Actual/360" 0 0)).length ∧
    ((generate_loan_schedule
        (loanOf 1000000 (1/20) ⟨2024, 1, 20⟩ ⟨2024, 3, 25⟩ "Actual/360" 0 0)).getD (1 + 1)
          defaultEntry).1
      = (loanOf 1000000 (1/20) ⟨2024, 1, 20⟩ ⟨2024, 3, 25⟩ "Actual/360" 0 0).maturity_date ∧
    (((generate_loan_schedule
          (loanOf 1000000 (1/20) ⟨2024, 1, 20⟩ ⟨2024, 3, 25⟩ "Actual/360" 0 0)).getD (1 + 1)
            defaultEntry).2.loan_paydown
        = ((generate_loan_schedule
            (loanOf 1000000 (1/20) ⟨2024, 1, 20⟩ ⟨2024, 3, 25⟩ "Actual/360" 0 0)).getD (1 + 1)
              defaultEntry).2.beginning_balance
          - ((generate_loan_schedule
              (loanOf 1000000 (1/20) ⟨2024, 1, 20⟩ ⟨2024, 3, 25⟩ "Actual/360" 0 0)).getD (1 + 1)
                defaultEntry).2.scheduled_principal_payment ∧
      ((generate_loan_schedule
          (loanOf 1000000 (1/20) ⟨2024, 1, 20⟩ ⟨2024, 3, 25⟩ "Actual/360" 0 0)).getD (1 + 1)
            defaultEntry).2.ending_balance
        = (loanOf 1000000 (1/20) ⟨2024, 1, 20⟩ ⟨2024, 3, 25⟩ "Actual/360" 0 0).loan_draws
            (loanOf 1000000 (1/20) ⟨2024, 1, 20⟩ ⟨2024, 3, 25⟩ "Actual/360" 0 0).maturity_date) :=
  ⟨by decide, by decide,
    C4_amended (loanOf 1000000 (1/20) ⟨2024, 1, 20⟩ ⟨2024, 3, 25⟩ "Actual/360" 0 0) 1
      (by decide) (by decide)⟩

/-- C3 (amended): `add_loan_draw` / `add_loan_paydown` never fail.  A call at
ANY date — in the ledger or not — succeeds and sets the override at that date
to the given amount (overwriting any previous value); a call at a date outside
the ledger's date set silently inserts an entry that schedule generation
ignores, leaving the generated schedule unchanged. -/
theorem C3_amended (l : Loan) (a : ℚ) (d : Date) :
    (add_loan_draw l a d).loan_draws d = a ∧
    (add_loan_paydown l a d).loan_paydowns d = a ∧
    (d ∉ l.monthly_dates →
      (add_loan_draw l a d).schedule = generate_loan_schedule l ∧
      (add_loan_paydown l a d).schedule = generate_loan_schedule l) := by
  refine ⟨by simp [add_loan_draw], by simp [add_loan_paydown], fun hd => ⟨?_, ?_⟩⟩
  · exact generate_agree l
      { l with loan_draws := fun k => if k = d then a else l.loan_draws k }
      rfl rfl rfl rfl rfl rfl rfl rfl
      (fun k hk => if_neg (fun he : k = d => hd (he ▸ hk)))
      (fun k _ => rfl)
  · exact generate_agree l
      { l with loan_paydowns := fun k => if k = d then a else l.loan_paydowns k }
      rfl rfl rfl rfl rfl rfl rfl rfl
      (fun k _ => rfl)
      (fun k hk => if_neg (fun he : k = d => hd (he ▸ hk)))

/-- Counterexample to C3 as stated: setting a draw at 2030-05-05, a date far
outside the three-period ledger, succeeds (and records the override) instead
of failing with any error. -/
theorem C3_counterexample :
    (⟨2030, 5, 5⟩ : Date)
        ∉ (loanOf 1000000 (1/20) ⟨2024, 1, 15⟩ ⟨2024, 3, 20⟩ "30/360" 0 0).monthly_dates ∧
    (add_loan_draw (loanOf 1000000 (1/20) ⟨2024, 1, 15⟩ ⟨2024, 3, 20⟩ "30/360" 0 0)
        100 ⟨2030, 5, 5⟩).loan_draws ⟨2030, 5, 5⟩ = 100 := by
  constructor
  · decide
  · simp [add_loan_draw]

/-- Witness for the amended C3: the out-of-ledger override leaves the
generated schedule unchanged. -/
theorem C3_witness :
    (add_loan_draw (loanOf 500000 (1/25) ⟨2024, 2, 10⟩ ⟨2024, 4, 10⟩ "Actual/365" 0 0)
        5 ⟨2031, 7, 7⟩).schedule
      = generate_loan_schedule (loanOf 500000 (1/25) ⟨2024, 2, 10⟩ ⟨2024, 4, 10⟩ "Actual/365" 0 0) ∧
    (add_loan_paydown (loanOf 500000 (1/25) ⟨2024, 2, 10⟩ ⟨2024, 4, 10⟩ "Actual/365" 0 0)
        5 ⟨2031, 7, 7⟩).schedule
      = generate_loan_schedule (loanOf 500000 (1/25) ⟨2024, 2, 10⟩ ⟨2024, 4, 10⟩ "Actual/365" 0 0) :=
  (C3_amended (loanOf 500000 (1/25) ⟨2024, 2, 10⟩ ⟨2024, 4, 10⟩ "Actual/365" 0 0)
    5 ⟨2031, 7, 7⟩).2.2 (by decide)

/-- C7: for every constructed loan and every override configuration (the
override maps are quantified arbitrarily, so in particular a draw or paydown
set at the funding date is ignored), the first generated period is keyed by
the normalized funding date and has draw = principal, ending = principal, and
beginning balance, interest, scheduled principal and paydown all `0`. -/
theorem C7_first_period (la r : ℚ) (fd md : Date) (pt : String) (iop ap : ℤ) (l : Loan)
    (hwf : WFDate fd) (hwm : WFDate md)
    (hok : mkLoan la r fd md pt iop ap = Except.ok l)
    (f g : Date → ℚ) :
    (generate_loan_schedule { l with loan_draws := f, loan_paydowns := g }).head?
      = some (get_end_of_month fd, ⟨0, la, 0, 0, 0, la⟩) := by
  have hl := mkLoan_ok_elim la r fd md pt iop ap l hok
  have hlt := mkLoan_ok_lt la r fd md pt iop ap l hok
  subst hl
  obtain ⟨rest, hrest⟩ := monthly_dates_loanOf la r fd md pt iop ap hwf hwm hlt
  have hm : ({ loanOf la r fd md pt iop ap with
      loan_draws := f, loan_paydowns := g } : Loan).monthly_dates
        = get_end_of_month fd :: rest := hrest
  rw [generate_eq_cons _ _ _ hm]
  rfl

/-- Witness for C7: a concrete constructed loan with nonzero overrides
installed at every date (including the funding date) still gets the clean
funding row. -/
theorem C7_witness :
    (generate_loan_schedule
        { loanOf 750000 (1/8) ⟨2024, 5, 9⟩ ⟨2024, 8, 2⟩ "30/360" 0 24 with
          loan_draws := fun _ => 11, loan_paydowns := fun _ => 13 }).head?
      = some (get_end_of_month ⟨2024, 5, 9⟩, ⟨0, 750000, 0, 0, 0, 750000⟩) :=
  C7_first_period 750000 (1/8) ⟨2024, 5, 9⟩ ⟨2024, 8, 2⟩ "30/360" 0 24
    (loanOf 750000 (1/8) ⟨2024, 5, 9⟩ ⟨2024, 8, 2⟩ "30/360" 0 24)
    (by decide) (by decide)
    (by
      unfold mkLoan
      rw [if_neg (by norm_num), if_neg (by norm_num), if_neg (not_not_intro (by decide)),
        if_neg (not_not_intro (by decide))])
    (fun _ => 11) (fun _ => 13)

/-- C10: when the raw funding and maturity dates fall in the same calendar
month with the funding date strictly earlier, construction succeeds (the
`fund_date >= maturity_date` check runs on the raw dates, before both are
normalized to the same end-of-month), the ledger holds exactly one period, and
the generated schedule is that single funding row with ending balance equal to
the full principal: the maturity-payoff branch never runs, so the loan is
never retired. -/
theorem C10_single_period (la r : ℚ) (fd md : Date) (pt : String) (iop ap : ℤ)
    (hwf : WFDate fd) (_hwm : WFDate md)
    (hy : fd.year = md.year) (hmo : fd.month = md.month) (hlt : dateLt fd md)
    (hla : 0 < la) (hr0 : 0 ≤ r) (hr1 : r ≤ 1) (hpt : pt ∈ payment_types) :
    mkLoan la r fd md pt iop ap = Except.ok (loanOf la r fd md pt iop ap) ∧
    (loanOf la r fd md pt iop ap).monthly_dates = [get_end_of_month fd] ∧
    generate_loan_schedule (loanOf la r fd md pt iop ap)
      = [(get_end_of_month fd, ⟨0, la, 0, 0, 0, la⟩)] := by
  have hmk : mkLoan la r fd md pt iop ap = Except.ok (loanOf la r fd md pt iop ap) := by
    unfold mkLoan
    rw [if_neg (not_le.mpr hla), if_neg (by push_neg; exact ⟨hr0, hr1⟩),
      if_neg (not_not_intro hlt), if_neg (not_not_intro hpt)]
  have hone : (loanOf la r fd md pt iop ap).monthly_dates = [get_end_of_month fd] := by
    show monthly_dates_of (get_end_of_month fd) (get_end_of_month md) = _
    have hn : n_periods (get_end_of_month fd) (get_end_of_month md) = 1 := by
      show (((md.year : ℤ) - (fd.year : ℤ)) * 12 + (md.month : ℤ) - (fd.month : ℤ) + 1).toNat = 1
      omega
    unfold monthly_dates_of
    rw [hn]
    show [add_months_eom (get_end_of_month fd) 0] = _
    rw [add_months_eom_zero (get_end_of_month fd) hwf.1 hwf.2.1]
    rfl
  refine ⟨hmk, hone, ?_⟩
  rw [generate_eq_cons _ _ _ hone]
  rfl

/-- Witness for C10: funded 2024-11-01, maturing 2024-11-15 — one period,
never retired. -/
theorem C10_witness :
    mkLoan 1000000 (1/20) ⟨2024, 11, 1⟩ ⟨2024, 11, 15⟩ "30/360" 0 360
      = Except.ok (loanOf 1000000 (1/20) ⟨2024, 11, 1⟩ ⟨2024, 11, 15⟩ "30/360" 0 360) ∧
    (loanOf 1000000 (1/20) ⟨2024, 11, 1⟩ ⟨2024, 11, 15⟩ "30/360" 0 360).monthly_dates
      = [get_end_of_month ⟨2024, 11, 1⟩] ∧
    generate_loan_schedule (loanOf 1000000 (1/20) ⟨2024, 11, 1⟩ ⟨2024, 11, 15⟩ "30/360" 0 360)
      = [(get_end_of_month ⟨2024, 11, 1⟩, ⟨0, 1000000, 0, 0, 0, 1000000⟩)] :=
  C10_single_period 1000000 (1/20) ⟨2024, 11, 1⟩ ⟨2024, 11, 15⟩ "30/360" 0 360
    (by decide) (by decide) rfl rfl (by decide) (by norm_num) (by norm_num) (by norm_num)
    (by decide)

/-- C6 (amended): for a loan with `amortizing_periods = 0`, adding a single
draw of amount `A` at a mid-schedule date `d` (strictly between the funding
period and maturity, with no draw previously set at `d`) leaves every period
before `d` unchanged; sets period `d`'s draw to `A` and raises its ending
balance by `A`; raises the beginning balance of every later period by `A`,
with interest recomputed on the raised balance, and raises the ending balance
of every later pre-maturity period by `A`; at the maturity period the forced
payoff absorbs the extra balance — its paydown rises by `A` and its ending
balance is unchanged (so it does NOT rise by `A`).  `applyDraw`/`shiftPs`
record exactly these per-field changes. -/
theorem C6_amended (l : Loan) (A : ℚ) (d k0 : Date) (pre mid : List Date)
    (hap : l.amortizing_periods = 0)
    (hd0 : l.loan_draws d = 0)
    (hdates : l.monthly_dates = k0 :: (pre ++ d :: (mid ++ [l.maturity_date])))
    (hdpre : d ∉ pre) (hdmid : d ∉ mid) (hdmat : d ≠ l.maturity_date)
    (hmmid : ∀ k ∈ mid, k ≠ l.maturity_date) :
    ((add_loan_draw l A d).schedule).take (pre.length + 1)
        = (generate_loan_schedule l).take (pre.length + 1) ∧
    ((add_loan_draw l A d).schedule).drop (pre.length + 1)
        = applyDraw l A ((generate_loan_schedule l).drop (pre.length + 1)) := by
  set l2 : Loan := { l with loan_draws := fun k => if k = d then A else l.loan_draws k }
    with hl2
  have hsch : (add_loan_draw l A d).schedule = generate_loan_schedule l2 := by
    rw [hl2]
    rfl
  have hm2 : l2.monthly_dates = k0 :: (pre ++ d :: (mid ++ [l.maturity_date])) := by
    rw [hl2]; exact hdates
  have hfd2 : l2.fund_date = l.fund_date := by rw [hl2]
  have hla2 : l2.loan_amount = l.loan_amount := by rw [hl2]
  have hr2 : l2.rate = l.rate := by rw [hl2]
  have hpt2 : l2.payment_type = l.payment_type := by rw [hl2]
  have hap2 : l2.amortizing_periods = l.amortizing_periods := by rw [hl2]
  have hpay2 : l2.amortizing_payment = l.amortizing_payment := by rw [hl2]
  have hmd2 : l2.maturity_date = l.maturity_date := by rw [hl2]
  have hpd2 : ∀ k, l2.loan_paydowns k = l.loan_paydowns k := by intro k; rw [hl2]
  have hdr2 : ∀ k, k ≠ d → l2.loan_draws k = l.loan_draws k := by
    intro k hk
    rw [hl2]
    exact if_neg hk
  have hdrd : l2.loan_draws d = A := by rw [hl2]; simp
  rw [hsch, generate_eq_cons l2 _ _ hm2, generate_eq_cons l _ _ hdates, hfd2, hla2]
  have hagr : genRun l2 l.fund_date l.loan_amount pre = genRun l l.fund_date l.loan_amount pre :=
    genRun_agree l l2 hr2 hpt2 hap2 hpay2 hmd2 pre l.fund_date l.loan_amount
      (fun k hk => hdr2 k (fun he => hdpre (he ▸ hk)))
      (fun k _ => hpd2 k)
  have hsplit2 := congrArg Prod.fst
    (genRun_append l2 pre (d :: (mid ++ [l.maturity_date])) l.fund_date l.loan_amount)
  have hsplit1 := congrArg Prod.fst
    (genRun_append l pre (d :: (mid ++ [l.maturity_date])) l.fund_date l.loan_amount)
  rw [hagr] at hsplit2
  set S1 := genRun l l.fund_date l.loan_amount pre with hS1
  have hlen : S1.1.length = pre.length := genRun_fst_length l pre l.fund_date l.loan_amount
  constructor
  · rw [List.take_succ_cons, List.take_succ_cons, hsplit2, hsplit1, ← hlen,
      List.take_left, List.take_left]
  · rw [List.drop_succ_cons, List.drop_succ_cons, hsplit2, hsplit1, ← hlen,
      List.drop_left, List.drop_left]
    simp only [genRun, applyDraw]
    have hpd : genPeriod l2 S1.2.1 d S1.2.2
        = { genPeriod l S1.2.1 d S1.2.2 with
            loan_draw := A,
            ending_balance := (genPeriod l S1.2.1 d S1.2.2).ending_balance + A } := by
      ext <;>
        (simp [genPeriod, get_loan_draw, get_loan_paydown, hr2, hpt2, hap2, hap, hmd2, hpd2,
          hdrd, hdmat, hd0]; try ring)
    have hend : (genPeriod l2 S1.2.1 d S1.2.2).ending_balance
        = (genPeriod l S1.2.1 d S1.2.2).ending_balance + A := by rw [hpd]
    rw [hend, genRun_shift l l2 A hr2 hpt2 hap2 hap hmd2 hpd2 mid hmmid
      (fun k hk => hdr2 k (fun he => hdmid (he ▸ hk)))
      (hmd2 ▸ hdr2 l.maturity_date (fun he => hdmat he.symm)), hpd]

/-- Counterexample to C6 as stated: for a two-period-amortizing 12% loan over
four periods, adding a 500,000 draw at period 1 raises period 2's ending
balance by 505,000, not 500,000 — the level payment stays fixed while interest
rises, so scheduled principal shrinks and the balance shift compounds. -/
theorem C6_counterexample :
    ((add_loan_draw (loanOf 1000000 (3/25) ⟨2024, 1, 31⟩ ⟨2024, 4, 30⟩ "30/360" 0 2)
          500000 ⟨2024, 2, 29⟩).schedule.getD 2 defaultEntry).2.ending_balance
      ≠ ((generate_loan_schedule
            (loanOf 1000000 (3/25) ⟨2024, 1, 31⟩ ⟨2024, 4, 30⟩ "30/360" 0 2)).getD 2
              defaultEntry).2.ending_balance + 500000 := by
  have hr : List.range 4 = [0, 1, 2, 3] := rfl
  have h4 : (4 : ℤ).toNat = 4 := rfl
  have hs1 : ¬ ("30/360" = "Actual/360") := by decide
  norm_num [add_loan_draw, generate_loan_schedule, genRun, genPeriod, loanOf, monthly_dates_of,
    n_periods, add_months_eom, get_end_of_month, daysInMonth, isLeap, calculate_interest,
    calculate_amortizing_payment, get_loan_draw, get_loan_paydown, toOrdinal, daysBeforeMonth,
    defaultEntry, zeroPeriod, payment_types, h4, hr, hs1]

/-- Witness for the amended C6 on a concrete zero-amortization loan over four
periods, with the draw at period 1. -/
theorem C6_witness :
    ((add_loan_draw (loanOf 1000000 (1/20) ⟨2024, 1, 31⟩ ⟨2024, 4, 30⟩ "30/360" 0 0)
          500000 ⟨2024, 2, 29⟩).schedule).take (([] : List Date).length + 1)
      = (generate_loan_schedule
          (loanOf 1000000 (1/20) ⟨2024, 1, 31⟩ ⟨2024, 4, 30⟩ "30/360" 0 0)).take
            (([] : List Date).length + 1) ∧
    ((add_loan_draw (loanOf 1000000 (1/20) ⟨2024, 1, 31⟩ ⟨2024, 4, 30⟩ "30/360" 0 0)
          500000 ⟨2024, 2, 29⟩).schedule).drop (([] : List Date).length + 1)
      = applyDraw (loanOf 1000000 (1/20) ⟨2024, 1, 31⟩ ⟨2024, 4, 30⟩ "30/360" 0 0) 500000
          ((generate_loan_schedule
              (loanOf 1000000 (1/20) ⟨2024, 1, 31⟩ ⟨2024, 4, 30⟩ "30/360" 0 0)).drop
                (([] : List Date).length + 1)) :=
  C6_amended (loanOf 1000000 (1/20) ⟨2024, 1, 31⟩ ⟨2024, 4, 30⟩ "30/360" 0 0) 500000
    ⟨2024, 2, 29⟩ ⟨2024, 1, 31⟩ [] [⟨2024, 3, 31⟩]
    rfl rfl (by decide) (by decide) (by decide) (by decide) (by decide)
